import Mathlib

/-!
# Verification of the spark-agent discrepancy resolution core

Shallow embedding of the Python source of `riu-rd/spark-agent`:

* `src/spark/reconciler_agent/tools/retry_transaction.py` — `retry_transaction_tool`
* `src/spark/reconciler_agent/sub_agents/escalator_agent/tools/create_report.py` —
  `create_and_save_report`
* `src/spark/host_agent_adk/host/tools/trybe_models.py` — `TRYBEDiscrepancyDetector`
* `src/agents/host_agent_adk/host/tools/database_tools.py` — `run_discrepancy_check`
* `src/spark/host_agent_adk/host/agent.py` — `HostAgent.send_message_to_remote_agent`

Modelling conventions:
* The Postgres `transactions` and `messages` tables are lists of records; the
  `transaction_id` column is a primary key, so an `INSERT` of a duplicate id raises
  and (inside a transaction block) rolls everything back.
* `retry_transaction_tool` wraps all of its statements in `async with conn.transaction()`,
  so it is modelled as all-or-nothing: every failure path returns the store unchanged.
* `create_and_save_report` has **no** transaction block: each statement auto-commits.
  It is modelled with a `fuel` parameter giving the number of primitive DB statements
  that succeed before the connection fails; statements already executed stay committed.
* Time is modelled as a `Nat` of seconds supplied by the caller (`now`); Python
  `timedelta(seconds := s)` becomes `now + s`.
* SQL `LIKE` is embedded by `likeMatch` (`%` matches any run, `_` exactly one char).
* Numeric DB columns (`amount`, `floating_duration_minutes`, latency) are rationals.
-/

namespace Spark

/-- SQL `LIKE` pattern matching over characters: `%` matches any (possibly empty)
run of characters, `_` matches exactly one character, anything else matches itself.
Structural recursion on the pattern; the `%` case tries every suffix of the string. -/
def likeMatch : List Char → List Char → Bool
  | [], s => s.isEmpty
  | p :: ps, s =>
    if p = '%' then s.tails.any (fun t => likeMatch ps t)
    else
      match s with
      | [] => false
      | c :: ss => (p = '_' || p = c) && likeMatch ps ss

/-- A row of the `transactions` table (all columns touched by the embedded code). -/
structure Txn where
  transaction_id : String
  user_id : String
  amount : Option ℚ
  transaction_type : String
  recipient_type : String
  recipient_account_id : String
  recipient_bank_name_or_ewallet : String
  device_id : String
  location_coordinates : String
  timestamp_initiated : Nat
  status_1 : Option String
  status_timestamp_1 : Option Nat
  status_2 : Option String
  status_timestamp_2 : Option Nat
  status_3 : Option String
  status_timestamp_3 : Option Nat
  status_4 : Option String
  status_timestamp_4 : Option Nat
  expected_completion_time : Option Nat
  simulated_network_latency : ℚ
  is_floating_cash : Bool
  floating_duration_minutes : ℚ
  is_fraudulent_attempt : Bool
  is_cancellation : Bool
  is_retry_successful : Bool
  manual_escalation_needed : Bool
deriving DecidableEq

/-- A row of the `messages` table.  The narrative report body is retained as an
opaque string (none of the verified properties inspect its text). -/
structure Msg where
  message_id : Int
  transaction_id : String
  report : String
deriving DecidableEq

/-- The shared datastore: the `transactions` and `messages` tables. -/
structure DB where
  transactions : List Txn
  messages : List Msg
deriving DecidableEq

/-- `SELECT ... FROM transactions WHERE transaction_id = $1 [AND user_id = $2]`:
first row whose id matches, scoped by `user_id` when one is supplied. -/
def fetchTxn (db : DB) (transaction_id : String) (user_id : Option String) : Option Txn :=
  db.transactions.find? (fun t =>
    t.transaction_id == transaction_id &&
      match user_id with
      | none => true
      | some u => t.user_id == u)

/-- `SELECT COUNT(*) FROM transactions WHERE transaction_id LIKE 'RT%_' || $1`. -/
def retryCount (db : DB) (transaction_id : String) : Nat :=
  db.transactions.countP (fun t =>
    likeMatch ("RT%_" ++ transaction_id).data t.transaction_id.data)

/-- Decides whether `id` is literally of the retry-attempt form
`RT<n>_<orig>` with `<n>` a non-empty digit string (the spec's reading of
"ids of the form RT&lt;n&gt;_&lt;original_id&gt;"). -/
def isRTForm (id orig : String) : Bool :=
  match id.data with
  | 'R' :: 'T' :: rest =>
    decide (rest.takeWhile Char.isDigit ≠ []) &&
      (rest.dropWhile Char.isDigit == '_' :: orig.data)
  | _ => false

/-- Number of literal `RT<n>_<orig>` records in the store. -/
def rtCount (db : DB) (orig : String) : Nat :=
  db.transactions.countP (fun t => isRTForm t.transaction_id orig)

/-- Outcome of `retry_transaction_tool` (the `status` field of the returned dict,
together with the data carried alongside it). -/
inductive RetryResult where
  | error
  | no_discrepancy
  | already_resolved
  | limit_reached (retry_count : Nat)
  | success (new_transaction_id : String) (retry_number : Nat)
deriving DecidableEq

/-- The fresh retry record inserted by `retry_transaction_tool`, cloning
payee/amount/device/location fields from the original and synthesizing a fresh
successful status progression (`initiated`/`processing`/`completed`/`settled`). -/
def mkRetryTxn (orig : Txn) (newId : String) (now : Nat) : Txn :=
  { transaction_id := newId
    user_id := orig.user_id
    amount := orig.amount
    transaction_type := orig.transaction_type
    recipient_type := orig.recipient_type
    recipient_account_id := orig.recipient_account_id
    recipient_bank_name_or_ewallet := orig.recipient_bank_name_or_ewallet
    device_id := orig.device_id
    location_coordinates := orig.location_coordinates
    timestamp_initiated := now
    status_1 := some "initiated"
    status_timestamp_1 := some now
    status_2 := some "processing"
    status_timestamp_2 := some (now + 30)
    status_3 := some "completed"
    status_timestamp_3 := some (now + 120)
    status_4 := some "settled"
    status_timestamp_4 := some (now + 300)
    expected_completion_time := some (now + 300)
    simulated_network_latency := 5/2
    is_floating_cash := false
    floating_duration_minutes := 0
    is_fraudulent_attempt := false
    is_cancellation := false
    is_retry_successful := false
    manual_escalation_needed := false }

/-- The three committed writes of a successful retry: insert the cloned retry
record, mark the original `is_retry_successful = TRUE` and
`manual_escalation_needed = FALSE`, then mark the new record
`is_retry_successful = TRUE`. -/
def retrySuccessStore (db : DB) (orig : Txn) (transaction_id newId : String) (now : Nat) :
    DB :=
  let inserted := db.transactions ++ [mkRetryTxn orig newId now]
  let afterOrig := inserted.map (fun t =>
    if t.transaction_id == transaction_id then
      { t with is_retry_successful := true, manual_escalation_needed := false }
    else t)
  let afterRetry := afterOrig.map (fun t =>
    if t.transaction_id == newId then { t with is_retry_successful := true } else t)
  { db with transactions := afterRetry }

/-- Embedding of `retry_transaction_tool` (retry_transaction.py).  The whole body
runs inside `async with conn.transaction()`, so every failure path (including a
primary-key conflict on the insert, which raises and rolls back) leaves the
store unchanged.  Guards are evaluated exactly in source order: empty id,
existence (user-scoped), `is_floating_cash`, `is_retry_successful`, retry count. -/
def retry_transaction_tool (db : DB) (transaction_id : String) (user_id : Option String)
    (now : Nat) : RetryResult × DB :=
  if transaction_id = "" then (.error, db)
  else
    match fetchTxn db transaction_id user_id with
    | none => (.error, db)
    | some orig =>
      if orig.is_floating_cash = false then (.no_discrepancy, db)
      else if orig.is_retry_successful = true then (.already_resolved, db)
      else
        let retry_count := retryCount db transaction_id
        if 2 ≤ retry_count then (.limit_reached retry_count, db)
        else
          let newId := "RT" ++ toString (retry_count + 1) ++ "_" ++ transaction_id
          if db.transactions.any (fun t => t.transaction_id == newId) then
            (.error, db)
          else
            (.success newId (retry_count + 1),
              retrySuccessStore db orig transaction_id newId now)

/-! ## Report generation (`create_report.py`) -/

/-- Outcome of `create_and_save_report`. -/
inductive ReportResult where
  | error
  | success (report_id : String) (message_id : Int) (priority : String)
deriving DecidableEq

/-- `float(transaction_data['amount']) if transaction_data['amount'] else 0`:
a missing (NULL) amount is read as 0. -/
def amountVal (t : Txn) : ℚ :=
  match t.amount with
  | some a => a
  | none => 0

/-- Priority assignment of `create_and_save_report` (create_report.py, lines
131–141): CRITICAL above 50,000, HIGH above 10,000, MEDIUM at two or more
retry attempts, otherwise LOW. -/
def reportPriority (amount : ℚ) (retry_count : Nat) : String :=
  if amount > 50000 then "CRITICAL"
  else if amount > 10000 then "HIGH"
  else if 2 ≤ retry_count then "MEDIUM"
  else "LOW"

/-- `SELECT COALESCE(MAX(message_id), 0) FROM messages`. -/
def maxMessageId (db : DB) : Int :=
  db.messages.foldl (fun acc m => max acc m.message_id) 0

/-- `report_id = f"{prefix}_{timestamp}_{transaction_id}"` with prefix `SUC`
for success reports and `ESC` otherwise; the `YYYYMMDDHHMMSS` timestamp string
is modelled as the decimal rendering of `now`. -/
def reportId (is_success : Bool) (now : Nat) (transaction_id : String) : String :=
  (if is_success then "SUC" else "ESC") ++ "_" ++ toString now ++ "_" ++ transaction_id

/-- Committed effect of the report `INSERT INTO messages` statement. -/
def reportInsertStore (db : DB) (transaction_id rid : String) (mid : Int) : DB :=
  { db with messages := db.messages ++
      [{ message_id := mid, transaction_id := transaction_id, report := rid }] }

/-- Committed effect of the `UPDATE transactions SET manual_escalation_needed
= TRUE` statement. -/
def reportEscalateStore (db : DB) (transaction_id : String) : DB :=
  { db with transactions := db.transactions.map (fun x =>
      if x.transaction_id == transaction_id then
        { x with manual_escalation_needed := true }
      else x) }

/-- Embedding of `create_and_save_report` (create_report.py).  Unlike
`retry_transaction_tool`, the source wraps nothing in a transaction block, so
each DB statement auto-commits on its own.  `fuel` is the number of primitive
DB statements that succeed before the connection fails; an exception is caught
by the `except` clause and returned as an error result, but statements already
executed stay committed.  Statement order: (1) fetch the transaction
(user-scoped when a user id is in the tool context), (2) fetch the retry
lineage, (3) read `MAX(message_id)`, (4) insert the report row, (5) set
`manual_escalation_needed = TRUE` on the transaction. -/
def create_and_save_report (db : DB) (transaction_id : String) (user_id : Option String)
    (is_success : Bool) (now : Nat) (fuel : Nat) : ReportResult × DB :=
  if transaction_id = "" then (.error, db)
  else if fuel < 1 then (.error, db)
  else
    match fetchTxn db transaction_id user_id with
    | none => (.error, db)
    | some t =>
      if fuel < 2 then (.error, db)
      else
        let retry_count := retryCount db transaction_id
        let rid := reportId is_success now transaction_id
        let priority := reportPriority (amountVal t) retry_count
        if fuel < 3 then (.error, db)
        else
          let next_message_id := maxMessageId db + 1
          if fuel < 4 then (.error, db)
          else
            let db1 := reportInsertStore db transaction_id rid next_message_id
            if fuel < 5 then (.error, db1)
            else
              (.success rid next_message_id priority, reportEscalateStore db1 transaction_id)

/-! ## Discrepancy classification (`trybe_models.py`, `database_tools.py`) -/

/-- `TRYBEDiscrepancyDetector._THRESHOLD_MIN = 10`, the named minutes threshold. -/
def THRESHOLD_MIN : ℚ := 10

/-- `TRYBEDiscrepancyDetector._is_floating` / `detect_discrepancies`:
a transaction is flagged exactly when `floating_duration_minutes` exceeds the
threshold constant. -/
def detectDiscrepancy (floating_duration_minutes : ℚ) : Bool :=
  floating_duration_minutes > THRESHOLD_MIN

/-- The individual reasons appended by `run_discrepancy_check`
(src/agents/.../database_tools.py); the interpolated message texts are
abstracted to one constructor per `append` site. -/
inductive Reason where
  | floatingDuration (minutes : ℚ)
  | statusFailed (status : String)
  | timeoutDetected
  | stuckProcessing
  | networkIssue
  | manualEscalationFlag
  | fraudAttempt
  | cancelled
  | anomalyPattern
deriving DecidableEq

/-- `pat` occurs as a contiguous substring of `s` (Python's `in` on strings). -/
def containsSub (s pat : String) : Bool :=
  s.data.tails.any (fun t => pat.data.isPrefixOf t)

/-- ASCII lower-casing of one character (status strings are ASCII). -/
def lowerChar (c : Char) : Char :=
  if 'A' ≤ c ∧ c ≤ 'Z' then Char.ofNat (c.toNat + 32) else c

/-- Python's `str.lower()` on ASCII status strings. -/
def strLower (s : String) : String := String.mk (s.data.map lowerChar)

/-- Reason list built by `run_discrepancy_check` when the detector flags the
transaction.  The source reads the status via
`transaction.get('status_4', ...).lower()`; the row dict always carries the
`status_4` key, so a NULL `status_4` reaches `.lower()` as `None` and raises —
modelled by returning `none`.  Otherwise the reasons are, in source order: the
floating-duration reason, the first matching status keyword
(failed/timeout/processing/network), the escalation flag, the fraud flag, the
cancellation flag, and a generic anomaly reason when the list would be empty. -/
def run_discrepancy_reasons (t : Txn) : Option (List Reason) :=
  if detectDiscrepancy t.floating_duration_minutes then
    match t.status_4 with
    | none => none
    | some s4 =>
      let status := strLower s4
      let r1 := if t.floating_duration_minutes > THRESHOLD_MIN then
          [Reason.floatingDuration t.floating_duration_minutes] else []
      let r2 :=
        if containsSub status "failed" then [Reason.statusFailed status]
        else if containsSub status "timeout" then [Reason.timeoutDetected]
        else if containsSub status "processing" then [Reason.stuckProcessing]
        else if containsSub status "network" then [Reason.networkIssue]
        else []
      let r3 := if t.manual_escalation_needed then [Reason.manualEscalationFlag] else []
      let r4 := if t.is_fraudulent_attempt then [Reason.fraudAttempt] else []
      let r5 := if t.is_cancellation then [Reason.cancelled] else []
      let rs := r1 ++ r2 ++ r3 ++ r4 ++ r5
      some (if rs.isEmpty then [Reason.anomalyPattern] else rs)
  else some []

/-- The discrepancy verdict returned by `run_discrepancy_check`:
`is_floating_cash` is the detector's boolean and `discrepancy_reasons` the
reason list (empty when not discrepant); `none` models the raised exception. -/
def run_discrepancy_check_verdict (t : Txn) : Option (Bool × List Reason) :=
  (run_discrepancy_reasons t).map
    (fun rs => (detectDiscrepancy t.floating_duration_minutes, rs))

/-! ## Severity ranking (from the spec's words, for claim C5)

The spec describes the priority rule as the pointwise maximum of an amount
severity and a retry-count severity floor; these definitions follow the spec's
words and are compared against `reportPriority`, which is embedded from the
source. -/

/-- Rank of a priority string: LOW 0, MEDIUM 1, HIGH 2, CRITICAL 3. -/
def sevRank : String → Nat
  | "MEDIUM" => 1
  | "HIGH" => 2
  | "CRITICAL" => 3
  | _ => 0

/-- Spec-side amount contribution: CRITICAL above 50,000, HIGH above 10,000,
else LOW. -/
def amountSeverity (amount : ℚ) : String :=
  if amount > 50000 then "CRITICAL" else if amount > 10000 then "HIGH" else "LOW"

/-- Spec-side retry-count floor: at least MEDIUM once 2 retries were consumed. -/
def retrySeverity (retry_count : Nat) : String :=
  if 2 ≤ retry_count then "MEDIUM" else "LOW"

/-! ## Concurrent message-id assignment (claim C8)

`create_and_save_report` assigns `message_id` by a plain `SELECT
COALESCE(MAX(message_id), 0)` followed by an `INSERT`, on an auto-commit
connection with no locking.  Two concurrent report creations are modelled as
two sessions each running this two-step read-max-then-insert protocol, with
the scheduler choosing the interleaving. -/

/-- Program counter of one report-creation session in the read-max-then-insert
protocol. -/
inductive WriterPC where
  | start
  | readDone (max_seen : Int)
  | done (assigned : Int)
deriving DecidableEq

/-- One step of a session: read `MAX(message_id)`, then insert `max_seen + 1`. -/
def writerStep (db : DB) (transaction_id : String) : WriterPC → WriterPC × DB
  | .start => (.readDone (maxMessageId db), db)
  | .readDone m =>
    (.done (m + 1),
     { db with messages := db.messages ++
         [{ message_id := m + 1, transaction_id := transaction_id, report := "" }] })
  | .done a => (.done a, db)

/-- Run two concurrent report-creation sessions under a schedule: `true` steps
the first session, `false` the second. -/
def runSchedule : List Bool → WriterPC × WriterPC × DB → WriterPC × WriterPC × DB
  | [], s => s
  | b :: rest, (w1, w2, db) =>
    if b then
      let (w1', db') := writerStep db "T1" w1
      runSchedule rest (w1', w2, db')
    else
      let (w2', db') := writerStep db "T2" w2
      runSchedule rest (w1, w2', db')

/-! ## Task-router outbound ids (`host/agent.py`, claim C9)

`send_message_to_remote_agent` computes
`task_id = state.get("task_id", str(uuid.uuid4()))`,
`context_id = state.get("context_id", str(uuid.uuid4()))`,
`message_id = str(uuid.uuid4())` and never writes any of them back to the
session state.  `uuid.uuid4()` is modelled as a fresh-name supply: the `n`-th
draw is the number `n`, and Python evaluates the default argument of
`dict.get` eagerly, so every call draws three names. -/

/-- The session-state entries read by `send_message_to_remote_agent`. -/
structure SessionState where
  task_id : Option Nat
  context_id : Option Nat
deriving DecidableEq

/-- Identifiers carried by one outbound specialist call. -/
structure OutboundIds where
  taskId : Nat
  contextId : Nat
  messageId : Nat
deriving DecidableEq

/-- Id generation of `send_message_to_remote_agent`: three fresh draws
(counter `ctr`, `ctr+1`, `ctr+2`), with `task_id`/`context_id` overridden by a
stored session-state value when present; returns the advanced counter.  The
session state itself is never updated. -/
def send_message_ids (st : SessionState) (ctr : Nat) : OutboundIds × Nat :=
  let u1 := ctr
  let u2 := ctr + 1
  let u3 := ctr + 2
  ({ taskId := st.task_id.getD u1
     contextId := st.context_id.getD u2
     messageId := u3 }, ctr + 3)

/-! ## Risk levels (claims C6); external advisory input, never read by
`retry_transaction_tool`, which takes no risk parameter. -/

/-- Risk level of an external risk assessment. -/
inductive RiskLevel where
  | LOW
  | MEDIUM
  | HIGH
deriving DecidableEq

/-- Sequential composition of `retry_transaction_tool` calls
(`transaction_id`, optional `user_id`, call time), threading the store. -/
def runRetries (db : DB) (calls : List (String × Option String × Nat)) : DB :=
  calls.foldl (fun d c => (retry_transaction_tool d c.1 c.2.1 c.2.2).2) db

/-! ## Concrete sample data for witnesses and counterexamples -/

/-- A sample floating-cash transaction row (unresolved, 45 minutes floating,
final status `failed`). -/
def baseTxn (id uid : String) : Txn :=
  { transaction_id := id
    user_id := uid
    amount := some 5000
    transaction_type := "transfer"
    recipient_type := "bank"
    recipient_account_id := "ACCT"
    recipient_bank_name_or_ewallet := "BANK"
    device_id := "DEV"
    location_coordinates := "LOC"
    timestamp_initiated := 0
    status_1 := some "initiated"
    status_timestamp_1 := some 0
    status_2 := none
    status_timestamp_2 := none
    status_3 := none
    status_timestamp_3 := none
    status_4 := some "failed"
    status_timestamp_4 := none
    expected_completion_time := none
    simulated_network_latency := 1
    is_floating_cash := true
    floating_duration_minutes := 45
    is_fraudulent_attempt := false
    is_cancellation := false
    is_retry_successful := false
    manual_escalation_needed := false }

/-- A transaction already marked `is_retry_successful` whose `is_floating_cash`
flag is clear (the state refuting claim C3 as stated). -/
def resolvedNonFloatingTxn : Txn :=
  { baseTxn "TXN_9" "U1" with is_floating_cash := false, is_retry_successful := true }

/-- Store for the C3 counterexample. -/
def dbResolved : DB := ⟨[resolvedNonFloatingTxn], []⟩

/-- Store for the C6 counterexample: one unresolved floating-cash transaction. -/
def dbHighRisk : DB := ⟨[baseTxn "TXN_H" "U1"], []⟩

/-- Store holding a transaction that is still flagged floating but already
successfully retried (the state the original reaches after a successful retry). -/
def dbResolvedFloating : DB :=
  ⟨[{ baseTxn "TXN_3" "U1" with is_retry_successful := true }], []⟩

/-- External risk assessment used in the C6 counterexample: `TXN_H` is HIGH risk. -/
def highRiskOf : String → Option RiskLevel :=
  fun id => if id == "TXN_H" then some RiskLevel.HIGH else none

/-- Store for the C7 counterexample and several witnesses. -/
def dbOne : DB := ⟨[baseTxn "TXN_7" "U1"], []⟩

/-- Store for the C1/C2 witnesses. -/
def dbW : DB := ⟨[baseTxn "TXN_1" "U1"], []⟩

/-- Store with two existing failed retry attempts (the spec's `TXN_2` scenario). -/
def dbExhausted : DB :=
  ⟨[{ baseTxn "TXN_2" "U1" with amount := some 60000 },
    { baseTxn "RT1_TXN_2" "U1" with is_floating_cash := false },
    { baseTxn "RT2_TXN_2" "U1" with is_floating_cash := false }], []⟩

/-- Store already holding a report row with message id 5. -/
def dbMsg : DB :=
  ⟨[baseTxn "TXN_7" "U1"], [{ message_id := 5, transaction_id := "TXN_7", report := "r" }]⟩

/-- A session state already carrying stored `task_id`/`context_id` entries. -/
def stStored : SessionState := ⟨some 999, some 777⟩

/-! ## Helper lemmas about `likeMatch` and `isRTForm` -/

/-- A `%`-free pattern matches itself (its `_` positions match their own `_`). -/
theorem likeMatch_self : ∀ (l : List Char), '%' ∉ l → likeMatch l l = true := by
  intro l
  induction l with
  | nil => intro _; rfl
  | cons c cs ih =>
    intro h
    have hc : ¬(c = '%') := fun hh => h (hh ▸ List.mem_cons_self c cs)
    have hcs : likeMatch cs cs = true := ih (fun hm => h (List.mem_cons_of_mem c hm))
    simp [likeMatch, hc, hcs]

/-- A `%` wildcard absorbs any prefix: if the rest of the pattern matches a
suffix, `%` followed by that pattern matches the whole string. -/
theorem likeMatch_percent_suffix (ps xs ss : List Char) (h : likeMatch ps ss = true) :
    likeMatch ('%' :: ps) (xs ++ ss) = true := by
  have hmem : ss ∈ (xs ++ ss).tails :=
    (List.mem_tails ss (xs ++ ss)).mpr (List.suffix_append xs ss)
  simp only [likeMatch, if_pos rfl]
  exact List.any_eq_true.mpr ⟨ss, hmem, h⟩

/-- Decomposition of a literal retry-attempt id. -/
theorem isRTForm_decomp {id orig : String} (h : isRTForm id orig = true) :
    ∃ ds, ds ≠ [] ∧ id.data = 'R' :: 'T' :: (ds ++ '_' :: orig.data) := by
  unfold isRTForm at h
  split at h
  case _ rest heq =>
    simp only [Bool.and_eq_true, beq_iff_eq, decide_eq_true_eq] at h
    refine ⟨rest.takeWhile Char.isDigit, h.1, ?_⟩
    have hrest : rest = rest.takeWhile Char.isDigit ++ '_' :: orig.data := by
      conv_lhs => rw [← List.takeWhile_append_dropWhile (p := Char.isDigit) (l := rest)]
      rw [h.2]
    rw [heq]
    conv_lhs => rw [hrest]
  case _ => simp at h

/-- Every literal `RT<n>_<orig>` id matches the SQL pattern `'RT%_' || orig`
used by the retry-count guard (provided `orig` contains no `%` wildcard). -/
theorem isRTForm_imp_like {orig id : String} (hp : '%' ∉ orig.data)
    (h : isRTForm id orig = true) :
    likeMatch ("RT%_" ++ orig).data id.data = true := by
  obtain ⟨ds, _, hdata⟩ := isRTForm_decomp h
  have hpat : ("RT%_" ++ orig).data = 'R' :: 'T' :: '%' :: '_' :: orig.data := by
    rw [String.data_append]; rfl
  rw [hpat, hdata]
  exact likeMatch_percent_suffix ('_' :: orig.data) ds ('_' :: orig.data)
    (by simp [likeMatch, likeMatch_self orig.data hp])

/-- The literal retry-attempt count is bounded by the count the SQL `LIKE`
query reports (the pattern can only over-approximate). -/
theorem rtCount_le_retryCount (db : DB) (orig : String) (hp : '%' ∉ orig.data) :
    rtCount db orig ≤ retryCount db orig := by
  unfold rtCount retryCount
  exact List.countP_mono_left (fun t _ h => isRTForm_imp_like hp h)

/-- An id of shape `RT<d>_<tid>` (single digit `d`) is a literal retry id for
`orig` exactly when `tid = orig`. -/
theorem isRTForm_digit_underscore {id tid orig : String} {d : Char}
    (hid : id.data = 'R' :: 'T' :: d :: '_' :: tid.data) (hd : d.isDigit = true) :
    isRTForm id orig = (tid == orig) := by
  unfold isRTForm
  rw [hid]
  have hu : ('_' : Char).isDigit = false := by decide
  simp only [List.takeWhile_cons, List.dropWhile_cons, hd, hu, if_true, if_false,
    Bool.false_eq_true, reduceIte]
  rw [Bool.eq_iff_iff]
  simp [String.ext_iff]

/-- The data of the id generated for the first retry attempt. -/
theorem newId_data_one (tid : String) :
    ("RT" ++ toString (0 + 1) ++ "_" ++ tid).data = 'R' :: 'T' :: '1' :: '_' :: tid.data := by
  rw [String.data_append, String.data_append, String.data_append]; rfl

/-- The data of the id generated for the second retry attempt. -/
theorem newId_data_two (tid : String) :
    ("RT" ++ toString (1 + 1) ++ "_" ++ tid).data = 'R' :: 'T' :: '2' :: '_' :: tid.data := by
  rw [String.data_append, String.data_append, String.data_append]; rfl

/-- Counting by a predicate on `transaction_id` is unchanged by a map that
preserves `transaction_id` (the SQL `UPDATE`s touch only non-key columns). -/
theorem countP_map_id_preserving (l : List Txn) (f : Txn → Txn)
    (hf : ∀ t, (f t).transaction_id = t.transaction_id) (p : String → Bool) :
    (l.map f).countP (fun t => p t.transaction_id) = l.countP (fun t => p t.transaction_id) := by
  rw [List.countP_map]
  exact List.countP_congr (fun t _ => by simp [Function.comp, hf t])

/-! ## Path characterizations of `retry_transaction_tool` -/

/-- Empty id: immediate validation error, store untouched. -/
theorem retry_empty_eq (db : DB) (uid : Option String) (now : Nat) :
    retry_transaction_tool db "" uid now = (.error, db) := by
  unfold retry_transaction_tool
  rw [if_pos rfl]

/-- Original transaction not found (under user scoping): error, store untouched. -/
theorem retry_notfound_eq {db : DB} {tid : String} {uid : Option String} (now : Nat)
    (h0 : tid ≠ "") (hf : fetchTxn db tid uid = none) :
    retry_transaction_tool db tid uid now = (.error, db) := by
  unfold retry_transaction_tool
  rw [if_neg h0, hf]

/-- `is_floating_cash` clear: `no_discrepancy`, store untouched. -/
theorem retry_no_discrepancy_eq {db : DB} {tid : String} {uid : Option String} (now : Nat)
    {t : Txn} (h0 : tid ≠ "") (hf : fetchTxn db tid uid = some t)
    (hfl : t.is_floating_cash = false) :
    retry_transaction_tool db tid uid now = (.no_discrepancy, db) := by
  unfold retry_transaction_tool
  rw [if_neg h0, hf]
  simp [hfl]

/-- Already successfully retried: `already_resolved`, store untouched. -/
theorem retry_already_resolved_eq {db : DB} {tid : String} {uid : Option String} (now : Nat)
    {t : Txn} (h0 : tid ≠ "") (hf : fetchTxn db tid uid = some t)
    (hfl : t.is_floating_cash = true) (hrs : t.is_retry_successful = true) :
    retry_transaction_tool db tid uid now = (.already_resolved, db) := by
  unfold retry_transaction_tool
  rw [if_neg h0, hf]
  simp [hfl, hrs]

/-- Two or more retry attempts already counted: `limit_reached` with the count,
store untouched. -/
theorem retry_limit_eq {db : DB} {tid : String} {uid : Option String} (now : Nat)
    {t : Txn} (h0 : tid ≠ "") (hf : fetchTxn db tid uid = some t)
    (hfl : t.is_floating_cash = true) (hrs : t.is_retry_successful = false)
    (hlim : 2 ≤ retryCount db tid) :
    retry_transaction_tool db tid uid now = (.limit_reached (retryCount db tid), db) := by
  unfold retry_transaction_tool
  rw [if_neg h0, hf]
  simp [hfl, hrs, hlim]

/-- Primary-key conflict on the insert: the whole SQL transaction rolls back,
so the call errors with the store untouched. -/
theorem retry_pk_conflict_eq {db : DB} {tid : String} {uid : Option String} (now : Nat)
    {t : Txn} (h0 : tid ≠ "") (hf : fetchTxn db tid uid = some t)
    (hfl : t.is_floating_cash = true) (hrs : t.is_retry_successful = false)
    (hlim : ¬ 2 ≤ retryCount db tid)
    (hpk : db.transactions.any
      (fun x => x.transaction_id == ("RT" ++ toString (retryCount db tid + 1) ++ "_" ++ tid))
      = true) :
    retry_transaction_tool db tid uid now = (.error, db) := by
  unfold retry_transaction_tool
  rw [if_neg h0, hf]
  simp [hfl, hrs, hlim, hpk]

/-- All guards pass and the generated id is free: the retry record is inserted,
the original is marked retried and de-escalated, and the new record is marked
successful. -/
theorem retry_success_eq {db : DB} {tid : String} {uid : Option String} (now : Nat)
    {t : Txn} (h0 : tid ≠ "") (hf : fetchTxn db tid uid = some t)
    (hfl : t.is_floating_cash = true) (hrs : t.is_retry_successful = false)
    (hlim : ¬ 2 ≤ retryCount db tid)
    (hpk : db.transactions.any
      (fun x => x.transaction_id == ("RT" ++ toString (retryCount db tid + 1) ++ "_" ++ tid))
      = false) :
    retry_transaction_tool db tid uid now =
      (.success ("RT" ++ toString (retryCount db tid + 1) ++ "_" ++ tid)
        (retryCount db tid + 1),
       retrySuccessStore db t tid ("RT" ++ toString (retryCount db tid + 1) ++ "_" ++ tid)
         now) := by
  unfold retry_transaction_tool
  rw [if_neg h0, hf]
  simp [hfl, hrs, hlim, hpk]

/-- Inversion of a successful retry: all four guards passed and the final
store carries the three committed writes. -/
theorem retry_success_inv {db : DB} {tid : String} {uid : Option String} {now : Nat}
    {nid : String} {n : Nat}
    (hs : (retry_transaction_tool db tid uid now).1 = .success nid n) :
    ∃ t, fetchTxn db tid uid = some t
      ∧ nid = "RT" ++ toString (retryCount db tid + 1) ++ "_" ++ tid
      ∧ n = retryCount db tid + 1
      ∧ (retry_transaction_tool db tid uid now).2 = retrySuccessStore db t tid nid now := by
  by_cases h0 : tid = ""
  · subst h0; rw [retry_empty_eq db uid now] at hs; simp at hs
  rcases hf : fetchTxn db tid uid with _ | t
  · rw [retry_notfound_eq now h0 hf] at hs; simp at hs
  cases hfl : t.is_floating_cash with
  | false => rw [retry_no_discrepancy_eq now h0 hf hfl] at hs; simp at hs
  | true =>
  cases hrs : t.is_retry_successful with
  | true => rw [retry_already_resolved_eq now h0 hf hfl hrs] at hs; simp at hs
  | false =>
  by_cases hlim : 2 ≤ retryCount db tid
  · rw [retry_limit_eq now h0 hf hfl hrs hlim] at hs; simp at hs
  cases hpk : db.transactions.any
      (fun x => x.transaction_id == ("RT" ++ toString (retryCount db tid + 1) ++ "_" ++ tid)) with
  | true => rw [retry_pk_conflict_eq now h0 hf hfl hrs hlim hpk] at hs; simp at hs
  | false =>
  rw [retry_success_eq now h0 hf hfl hrs hlim hpk] at hs
  injection hs with hnid hn
  exact ⟨t, rfl, hnid.symm, hn.symm, by
    rw [retry_success_eq now h0 hf hfl hrs hlim hpk, ← hnid]⟩

/-- The successful-retry writes add exactly one record, whose id is the
generated `newId`; the updates touch no `transaction_id`. -/
theorem rtCount_retrySuccessStore (db : DB) (t : Txn) (tid newId : String) (now : Nat)
    (orig : String) :
    rtCount (retrySuccessStore db t tid newId now) orig =
      rtCount db orig + (if isRTForm newId orig = true then 1 else 0) := by
  unfold retrySuccessStore rtCount
  dsimp only
  rw [countP_map_id_preserving _ _
      (fun x => by by_cases h : x.transaction_id == newId <;> simp [h])
      (fun s => isRTForm s orig),
    countP_map_id_preserving _ _
      (fun x => by by_cases h : x.transaction_id == tid <;> simp [h])
      (fun s => isRTForm s orig),
    List.countP_append]
  simp [mkRetryTxn, List.countP_cons]

/-- Any single `retry_transaction_tool` call preserves the bound of two
literal retry-attempt records per original id. -/
theorem rtCount_step (db : DB) (tid : String) (uid : Option String) (now : Nat)
    {orig : String} (hp : '%' ∉ orig.data) (h : rtCount db orig ≤ 2) :
    rtCount (retry_transaction_tool db tid uid now).2 orig ≤ 2 := by
  by_cases h0 : tid = ""
  · subst h0; rw [retry_empty_eq]; exact h
  rcases hf : fetchTxn db tid uid with _ | t
  · rw [retry_notfound_eq now h0 hf]; exact h
  cases hfl : t.is_floating_cash with
  | false => rw [retry_no_discrepancy_eq now h0 hf hfl]; exact h
  | true =>
  cases hrs : t.is_retry_successful with
  | true => rw [retry_already_resolved_eq now h0 hf hfl hrs]; exact h
  | false =>
  by_cases hlim : 2 ≤ retryCount db tid
  · rw [retry_limit_eq now h0 hf hfl hrs hlim]; exact h
  cases hpk : db.transactions.any
      (fun x => x.transaction_id == ("RT" ++ toString (retryCount db tid + 1) ++ "_" ++ tid)) with
  | true => rw [retry_pk_conflict_eq now h0 hf hfl hrs hlim hpk]; exact h
  | false =>
  rw [retry_success_eq now h0 hf hfl hrs hlim hpk]
  have hpair : (RetryResult.success ("RT" ++ toString (retryCount db tid + 1) ++ "_" ++ tid)
      (retryCount db tid + 1),
      retrySuccessStore db t tid ("RT" ++ toString (retryCount db tid + 1) ++ "_" ++ tid)
        now).2
      = retrySuccessStore db t tid ("RT" ++ toString (retryCount db tid + 1) ++ "_" ++ tid)
        now := rfl
  rw [hpair, rtCount_retrySuccessStore]
  have hrc2 : retryCount db tid = 0 ∨ retryCount db tid = 1 := by omega
  by_cases htid : tid = orig
  · subst htid
    have hle := rtCount_le_retryCount db tid hp
    have h1 : rtCount db tid ≤ 1 := by omega
    split <;> omega
  · have hfalse :
        isRTForm ("RT" ++ toString (retryCount db tid + 1) ++ "_" ++ tid) orig = false := by
      rcases hrc2 with hrc | hrc <;> rw [hrc]
      · rw [isRTForm_digit_underscore (newId_data_one tid) (by decide)]
        simp [htid]
      · rw [isRTForm_digit_underscore (newId_data_two tid) (by decide)]
        simp [htid]
    rw [hfalse]
    simpa using h

/-! ## Path characterizations of `create_and_save_report` -/

/-- Transaction not found (or no fuel for the fetch): error, nothing written. -/
theorem create_notfound_eq {db : DB} {tid : String} {uid : Option String}
    (s : Bool) (now : Nat) {fuel : Nat} (h0 : tid ≠ "") (h1 : ¬ fuel < 1)
    (hf : fetchTxn db tid uid = none) :
    create_and_save_report db tid uid s now fuel = (.error, db) := by
  unfold create_and_save_report
  rw [if_neg h0, if_neg h1, hf]

/-- Connection failure between the report insert and the escalation update:
the insert stays committed, the flag update never runs, and the call errors. -/
theorem create_partial_eq {db : DB} {tid : String} {uid : Option String}
    (s : Bool) (now : Nat) {t : Txn} (h0 : tid ≠ "")
    (hf : fetchTxn db tid uid = some t) :
    create_and_save_report db tid uid s now 4 =
      (.error, reportInsertStore db tid (reportId s now tid) (maxMessageId db + 1)) := by
  unfold create_and_save_report
  rw [if_neg h0, hf]
  norm_num

/-- Enough fuel and the transaction present: the report row is inserted with
`message_id = max + 1` and the transaction is flagged for manual escalation. -/
theorem create_success_eq {db : DB} {tid : String} {uid : Option String}
    (s : Bool) (now : Nat) {fuel : Nat} {t : Txn} (h0 : tid ≠ "") (hfuel : 5 ≤ fuel)
    (hf : fetchTxn db tid uid = some t) :
    create_and_save_report db tid uid s now fuel =
      (.success (reportId s now tid) (maxMessageId db + 1)
        (reportPriority (amountVal t) (retryCount db tid)),
       reportEscalateStore
         (reportInsertStore db tid (reportId s now tid) (maxMessageId db + 1)) tid) := by
  unfold create_and_save_report
  rw [if_neg h0, if_neg (by omega : ¬ fuel < 1), hf]
  simp only [if_neg (by omega : ¬ fuel < 2), if_neg (by omega : ¬ fuel < 3),
    if_neg (by omega : ¬ fuel < 4), if_neg (by omega : ¬ fuel < 5)]

/-- Inversion of a successful report creation: the transaction was found, the
assigned ids and priority have the read-max-then-insert/threshold forms, and
the final store carries both committed statements. -/
theorem create_success_inv {db : DB} {tid : String} {uid : Option String}
    {s : Bool} {now fuel : Nat} {rid : String} {mid : Int} {p : String}
    (hs : (create_and_save_report db tid uid s now fuel).1 = .success rid mid p) :
    tid ≠ "" ∧ 5 ≤ fuel ∧ ∃ t, fetchTxn db tid uid = some t ∧
      rid = reportId s now tid ∧ mid = maxMessageId db + 1 ∧
      p = reportPriority (amountVal t) (retryCount db tid) ∧
      (create_and_save_report db tid uid s now fuel).2 =
        reportEscalateStore (reportInsertStore db tid rid mid) tid := by
  by_cases h0 : tid = ""
  · unfold create_and_save_report at hs; simp [h0] at hs
  by_cases h1 : fuel < 1
  · unfold create_and_save_report at hs; simp [h0, h1] at hs
  rcases hf : fetchTxn db tid uid with _ | t
  · rw [create_notfound_eq s now h0 h1 hf] at hs; simp at hs
  by_cases h2 : fuel < 2
  · unfold create_and_save_report at hs; simp [h0, h1, h2, hf] at hs
  by_cases h3 : fuel < 3
  · unfold create_and_save_report at hs; simp [h0, h1, h2, h3, hf] at hs
  by_cases h4 : fuel < 4
  · unfold create_and_save_report at hs; simp [h0, h1, h2, h3, h4, hf] at hs
  by_cases h5 : fuel < 5
  · unfold create_and_save_report at hs; simp [h0, h1, h2, h3, h4, h5, hf] at hs
  have hfuel : 5 ≤ fuel := by omega
  rw [create_success_eq s now h0 hfuel hf] at hs
  injection hs with hrid hmid hp
  exact ⟨h0, hfuel, t, rfl, hrid.symm, hmid.symm, hp.symm, by
    rw [create_success_eq s now h0 hfuel hf, ← hrid, ← hmid]⟩

/-- After the escalation update, every row with the report's transaction id
carries `manual_escalation_needed = true`. -/
theorem reportEscalateStore_flag (db : DB) (tid : String) :
    ∀ x ∈ (reportEscalateStore db tid).transactions,
      x.transaction_id = tid → x.manual_escalation_needed = true := by
  intro x hx hid
  unfold reportEscalateStore at hx
  simp only [List.mem_map] at hx
  obtain ⟨y, _, rfl⟩ := hx
  by_cases h : y.transaction_id == tid
  · simp [h]
  · simp only [h, Bool.false_eq_true, reduceIte] at hid ⊢
    exact absurd hid (by simpa [beq_iff_eq] using h)

/-- After a successful retry's writes, every row carrying the original id has
`manual_escalation_needed = false` (the update clears it; later statements
only touch `is_retry_successful`). -/
theorem retrySuccessStore_flag (db : DB) (t : Txn) (tid newId : String) (now : Nat) :
    ∀ x ∈ (retrySuccessStore db t tid newId now).transactions,
      x.transaction_id = tid → x.manual_escalation_needed = false := by
  intro x hx hid
  unfold retrySuccessStore at hx
  dsimp only at hx
  simp only [List.mem_map] at hx
  obtain ⟨y, hy, rfl⟩ := hx
  obtain ⟨z, _, rfl⟩ := hy
  by_cases h1 : z.transaction_id == tid
  · by_cases h2 : z.transaction_id == newId <;> simp [h1, h2]
  · by_cases h2 : z.transaction_id == newId <;>
      simp only [h1, h2, Bool.false_eq_true, reduceIte] at hid ⊢ <;>
      exact absurd hid (by simpa [beq_iff_eq] using h1)

/-- Every message id in the store is bounded by the running `MAX` fold. -/
theorem foldl_max_bounds (l : List Msg) :
    ∀ (a : Int), a ≤ l.foldl (fun acc m => max acc m.message_id) a
      ∧ ∀ m ∈ l, m.message_id ≤ l.foldl (fun acc m => max acc m.message_id) a := by
  induction l with
  | nil => intro a; exact ⟨le_refl a, by simp⟩
  | cons x xs ih =>
    intro a
    refine ⟨?_, ?_⟩
    · exact le_trans (le_max_left a x.message_id) (ih (max a x.message_id)).1
    · intro m hm
      rcases List.mem_cons.mp hm with rfl | hm'
      · exact le_trans (le_max_right a m.message_id) (ih (max a m.message_id)).1
      · exact (ih (max a x.message_id)).2 m hm'

/-- Each existing message id is at most the `COALESCE(MAX(message_id), 0)`
the report generator reads. -/
theorem mem_le_maxMessageId (db : DB) : ∀ m ∈ db.messages, m.message_id ≤ maxMessageId db :=
  (foldl_max_bounds db.messages 0).2

/-- The anomaly-fallback pattern never yields an empty list when the fallback
itself is non-empty. -/
theorem ite_isEmpty_ne_nil {α : Type} (y z : List α) (hz : z ≠ []) :
    (if y.isEmpty = true then z else y) ≠ [] := by
  split
  · exact hz
  · rename_i h
    intro hnil
    rw [hnil] at h
    exact h rfl

/-! ## Claim theorems -/

/-- C1: for every original transaction id, at most 2 retry-attempt records
(ids of the form `RT<n>_<original_id>`) ever exist: any sequence of
`retry_transaction_tool` calls starting from a store with at most 2 such
records leaves at most 2, and a call that finds 2 or more existing attempts
(all earlier guards passing) returns `limit_reached` with the count and
creates no record. -/
theorem retry_attempt_limit_invariant (orig : String) (hp : '%' ∉ orig.data) :
    (∀ (db : DB) (calls : List (String × Option String × Nat)),
      rtCount db orig ≤ 2 → rtCount (runRetries db calls) orig ≤ 2)
    ∧ (∀ (db : DB) (uid : Option String) (now : Nat) (t : Txn),
        orig ≠ "" → fetchTxn db orig uid = some t → t.is_floating_cash = true →
        t.is_retry_successful = false → 2 ≤ retryCount db orig →
        retry_transaction_tool db orig uid now = (.limit_reached (retryCount db orig), db)) := by
  constructor
  · intro db calls
    induction calls generalizing db with
    | nil => intro h; exact h
    | cons c rest ih =>
      intro h
      exact ih _ (rtCount_step db c.1 c.2.1 c.2.2 hp h)
  · intro db uid now t h0 hf hfl hrs hlim
    exact retry_limit_eq now h0 hf hfl hrs hlim

/-- Witness for C1 at concrete stores: three successive retries of `TXN_1`
leave at most two attempt records, and a retry of the exhausted `TXN_2`
returns `limit_reached` without touching the store. -/
theorem retry_attempt_limit_invariant_witness :
    rtCount (runRetries dbW [("TXN_1", none, 0), ("TXN_1", none, 1), ("TXN_1", none, 2)])
        "TXN_1" ≤ 2
    ∧ retry_transaction_tool dbExhausted "TXN_2" none 0 =
        (.limit_reached (retryCount dbExhausted "TXN_2"), dbExhausted) := by
  constructor
  · exact (retry_attempt_limit_invariant "TXN_1" (by decide)).1 dbW
      [("TXN_1", none, 0), ("TXN_1", none, 1), ("TXN_1", none, 2)] (by decide)
  · exact (retry_attempt_limit_invariant "TXN_2" (by decide)).2 dbExhausted none 0
      ({ baseTxn "TXN_2" "U1" with amount := some 60000 })
      (by decide) (by decide) (by decide) (by decide) (by decide)

/-- C2: the guards of `retry_transaction_tool` are evaluated in a fixed order
and the call returns at the first failing guard: missing transaction (scoped
by `user_id` when supplied — a caller can never reach another user's
transaction) gives an error; clear `is_floating_cash` gives `no_discrepancy`;
set `is_retry_successful` gives `already_resolved`; two existing attempts give
`limit_reached`; only with every guard passed is attempt `RT<n>_<id>`
created. -/
theorem retry_guard_order (db : DB) (tid : String) (uid : Option String) (now : Nat) :
    (tid = "" → retry_transaction_tool db tid uid now = (.error, db))
    ∧ (tid ≠ "" → fetchTxn db tid uid = none →
        retry_transaction_tool db tid uid now = (.error, db))
    ∧ (∀ u t, fetchTxn db tid (some u) = some t → t.user_id = u)
    ∧ (∀ t, tid ≠ "" → fetchTxn db tid uid = some t → t.is_floating_cash = false →
        retry_transaction_tool db tid uid now = (.no_discrepancy, db))
    ∧ (∀ t, tid ≠ "" → fetchTxn db tid uid = some t → t.is_floating_cash = true →
        t.is_retry_successful = true →
        retry_transaction_tool db tid uid now = (.already_resolved, db))
    ∧ (∀ t, tid ≠ "" → fetchTxn db tid uid = some t → t.is_floating_cash = true →
        t.is_retry_successful = false → 2 ≤ retryCount db tid →
        retry_transaction_tool db tid uid now = (.limit_reached (retryCount db tid), db))
    ∧ (∀ t, tid ≠ "" → fetchTxn db tid uid = some t → t.is_floating_cash = true →
        t.is_retry_successful = false → ¬ 2 ≤ retryCount db tid →
        db.transactions.any (fun x =>
          x.transaction_id == ("RT" ++ toString (retryCount db tid + 1) ++ "_" ++ tid))
          = false →
        retry_transaction_tool db tid uid now =
          (.success ("RT" ++ toString (retryCount db tid + 1) ++ "_" ++ tid)
            (retryCount db tid + 1),
           retrySuccessStore db t tid
             ("RT" ++ toString (retryCount db tid + 1) ++ "_" ++ tid) now))
    ∧ (∀ nid n, (retry_transaction_tool db tid uid now).1 = .success nid n →
        tid ≠ "" ∧ ∃ t, fetchTxn db tid uid = some t ∧ t.is_floating_cash = true ∧
          t.is_retry_successful = false ∧ retryCount db tid < 2) := by
  refine ⟨?_, ?_, ?_, ?_, ?_, ?_, ?_, ?_⟩
  · intro h0; subst h0; exact retry_empty_eq db uid now
  · intro h0 hf; exact retry_notfound_eq now h0 hf
  · intro u t hf
    unfold fetchTxn at hf
    have hp := List.find?_some hf
    simp only [Bool.and_eq_true, beq_iff_eq] at hp
    exact hp.2
  · intro t h0 hf hfl; exact retry_no_discrepancy_eq now h0 hf hfl
  · intro t h0 hf hfl hrs; exact retry_already_resolved_eq now h0 hf hfl hrs
  · intro t h0 hf hfl hrs hlim; exact retry_limit_eq now h0 hf hfl hrs hlim
  · intro t h0 hf hfl hrs hlim hpk; exact retry_success_eq now h0 hf hfl hrs hlim hpk
  · intro nid n hs
    by_cases h0 : tid = ""
    · subst h0; rw [retry_empty_eq db uid now] at hs; simp at hs
    refine ⟨h0, ?_⟩
    rcases hf : fetchTxn db tid uid with _ | t
    · rw [retry_notfound_eq now h0 hf] at hs; simp at hs
    cases hfl : t.is_floating_cash with
    | false => rw [retry_no_discrepancy_eq now h0 hf hfl] at hs; simp at hs
    | true =>
    cases hrs : t.is_retry_successful with
    | true => rw [retry_already_resolved_eq now h0 hf hfl hrs] at hs; simp at hs
    | false =>
    by_cases hlim : 2 ≤ retryCount db tid
    · rw [retry_limit_eq now h0 hf hfl hrs hlim] at hs; simp at hs
    exact ⟨t, rfl, hfl, hrs, by omega⟩

/-- Witness for C2 exercising each guard at a concrete store: empty id, id not
found, user-scoped fetch, clear floating flag, already retried, exhausted
attempts, and a full success. -/
theorem retry_guard_order_witness :
    retry_transaction_tool dbW "" none 0 = (.error, dbW)
    ∧ retry_transaction_tool dbW "NOPE" none 0 = (.error, dbW)
    ∧ (baseTxn "TXN_1" "U1").user_id = "U1"
    ∧ retry_transaction_tool dbResolved "TXN_9" none 0 = (.no_discrepancy, dbResolved)
    ∧ retry_transaction_tool dbResolvedFloating "TXN_3" none 0 =
        (.already_resolved, dbResolvedFloating)
    ∧ retry_transaction_tool dbExhausted "TXN_2" none 0 =
        (.limit_reached (retryCount dbExhausted "TXN_2"), dbExhausted)
    ∧ retry_transaction_tool dbW "TXN_1" none 0 =
        (.success ("RT" ++ toString (retryCount dbW "TXN_1" + 1) ++ "_" ++ "TXN_1")
          (retryCount dbW "TXN_1" + 1),
         retrySuccessStore dbW (baseTxn "TXN_1" "U1") "TXN_1"
           ("RT" ++ toString (retryCount dbW "TXN_1" + 1) ++ "_" ++ "TXN_1") 0) := by
  refine ⟨(retry_guard_order dbW "" none 0).1 rfl,
    (retry_guard_order dbW "NOPE" none 0).2.1 (by decide) (by decide),
    (retry_guard_order dbW "TXN_1" (some "U1") 0).2.2.1 "U1" (baseTxn "TXN_1" "U1")
      (by decide),
    (retry_guard_order dbResolved "TXN_9" none 0).2.2.2.1 resolvedNonFloatingTxn
      (by decide) (by decide) (by decide),
    (retry_guard_order dbResolvedFloating "TXN_3" none 0).2.2.2.2.1
      ({ baseTxn "TXN_3" "U1" with is_retry_successful := true })
      (by decide) (by decide) (by decide) (by decide),
    (retry_guard_order dbExhausted "TXN_2" none 0).2.2.2.2.2.1
      ({ baseTxn "TXN_2" "U1" with amount := some 60000 })
      (by decide) (by decide) (by decide) (by decide) (by decide),
    (retry_guard_order dbW "TXN_1" none 0).2.2.2.2.2.2.1 (baseTxn "TXN_1" "U1")
      (by decide) (by decide) (by decide) (by decide) (by decide) (by decide)⟩

/-- C3 counterexample: a transaction with `is_retry_successful = true` but
`is_floating_cash = false` makes `retry_transaction_tool` return
`no_discrepancy`, not `already_resolved` — the floating-cash guard fires
first, so the claim as stated fails. -/
theorem retry_resolved_counterexample :
    resolvedNonFloatingTxn.is_retry_successful = true
    ∧ fetchTxn dbResolved "TXN_9" none = some resolvedNonFloatingTxn
    ∧ (retry_transaction_tool dbResolved "TXN_9" none 0).1 = RetryResult.no_discrepancy
    ∧ RetryResult.no_discrepancy ≠ RetryResult.already_resolved := by
  exact ⟨rfl, by decide, by decide, by decide⟩

/-- C3 (amended): a retry of a transaction already marked
`is_retry_successful = true` creates no record and leaves the store unchanged;
it returns `already_resolved` provided `is_floating_cash` is still set (as it
is after any successful retry), and `no_discrepancy` when that flag is clear. -/
theorem retry_resolved_idempotent (db : DB) (tid : String) (uid : Option String)
    (now : Nat) (t : Txn) (h0 : tid ≠ "") (hf : fetchTxn db tid uid = some t)
    (hrs : t.is_retry_successful = true) :
    (t.is_floating_cash = true →
      retry_transaction_tool db tid uid now = (.already_resolved, db))
    ∧ (t.is_floating_cash = false →
      retry_transaction_tool db tid uid now = (.no_discrepancy, db)) :=
  ⟨fun hfl => retry_already_resolved_eq now h0 hf hfl hrs,
   fun hfl => retry_no_discrepancy_eq now h0 hf hfl⟩

/-- Witness for the amended C3: retrying the already-retried, still-flagged
`TXN_3` returns `already_resolved` with the store untouched. -/
theorem retry_resolved_idempotent_witness :
    retry_transaction_tool dbResolvedFloating "TXN_3" none 0 =
      (.already_resolved, dbResolvedFloating) :=
  (retry_resolved_idempotent dbResolvedFloating "TXN_3" none 0
    ({ baseTxn "TXN_3" "U1" with is_retry_successful := true })
    (by decide) (by decide) (by decide)).1 (by decide)

/-- C4: the discrepancy verdict is decided by the 10-minute threshold held in
the single named constant (`_THRESHOLD_MIN = 10`): `is_discrepancy` is exactly
`floating_duration_minutes > 10`; a discrepant verdict always carries a
non-empty reasons list (with a generic anomaly reason as fallback); and at or
below the threshold with no other flags set the verdict is negative with no
reasons. -/
theorem discrepancy_threshold_policy (t : Txn) :
    THRESHOLD_MIN = 10
    ∧ (detectDiscrepancy t.floating_duration_minutes = true ↔
        t.floating_duration_minutes > THRESHOLD_MIN)
    ∧ (∀ d rs, run_discrepancy_check_verdict t = some (d, rs) →
        d = detectDiscrepancy t.floating_duration_minutes ∧ (d = true → rs ≠ []))
    ∧ (t.floating_duration_minutes ≤ THRESHOLD_MIN → t.is_fraudulent_attempt = false →
        t.is_cancellation = false → t.manual_escalation_needed = false →
        run_discrepancy_check_verdict t = some (false, [])) := by
  have hdet : detectDiscrepancy t.floating_duration_minutes = true ↔
      t.floating_duration_minutes > THRESHOLD_MIN := by
    simp [detectDiscrepancy]
  refine ⟨rfl, hdet, ?_, ?_⟩
  · intro d rs h
    unfold run_discrepancy_check_verdict at h
    rcases hr : run_discrepancy_reasons t with _ | rs'
    · rw [hr] at h; simp at h
    · rw [hr] at h
      injection h with h'
      injection h' with hd hrs
      subst hd; subst hrs
      refine ⟨rfl, ?_⟩
      intro hdtrue
      unfold run_discrepancy_reasons at hr
      rw [hdtrue] at hr
      simp only [if_true] at hr
      rcases hs4 : t.status_4 with _ | s4
      · rw [hs4] at hr; simp at hr
      · rw [hs4] at hr
        have hfd : t.floating_duration_minutes > THRESHOLD_MIN := hdet.mp hdtrue
        simp only [if_pos hfd] at hr
        injection hr with hr'
        rw [← hr']
        exact ite_isEmpty_ne_nil _ _ (List.cons_ne_nil _ _)
  · intro hle _ _ _
    have hdf : detectDiscrepancy t.floating_duration_minutes = false := by
      simp [detectDiscrepancy, not_lt.mpr hle]
    unfold run_discrepancy_check_verdict run_discrepancy_reasons
    rw [hdf]
    simp

/-- Witness for C4 at concrete snapshots: the 45-minute floating transaction
is discrepant with reasons, and a 5-minute variant is clean. -/
theorem discrepancy_threshold_policy_witness :
    (true = detectDiscrepancy (baseTxn "TXN_1" "U1").floating_duration_minutes)
    ∧ [Reason.floatingDuration 45, Reason.statusFailed "failed"] ≠ ([] : List Reason)
    ∧ run_discrepancy_check_verdict
        ({ baseTxn "TXN_1" "U1" with floating_duration_minutes := 5 }) = some (false, []) := by
  have h3 := (discrepancy_threshold_policy (baseTxn "TXN_1" "U1")).2.2.1 true
    [Reason.floatingDuration 45, Reason.statusFailed "failed"] (by decide)
  have h4 := (discrepancy_threshold_policy
      ({ baseTxn "TXN_1" "U1" with floating_duration_minutes := 5 })).2.2.2
    (by decide) (by decide) (by decide) (by decide)
  exact ⟨h3.1, h3.2 rfl, h4⟩

/-- C5: report priority is the maximum of the amount rule and the retry-count
floor — CRITICAL above 50,000, HIGH above 10,000, MEDIUM once two attempts
exist, else LOW; it is monotone in the amount, combined by maximum severity
(never summed), and it is exactly the priority a successful
`create_and_save_report` persists. -/
theorem report_priority_policy (a b : ℚ) (rc : Nat) :
    (a > 50000 → reportPriority a rc = "CRITICAL")
    ∧ (a ≤ 50000 → a > 10000 → reportPriority a rc = "HIGH")
    ∧ (a ≤ 10000 → 2 ≤ rc → reportPriority a rc = "MEDIUM")
    ∧ (a ≤ 10000 → rc < 2 → reportPriority a rc = "LOW")
    ∧ (a ≤ b → sevRank (reportPriority a rc) ≤ sevRank (reportPriority b rc))
    ∧ sevRank (reportPriority a rc) =
        max (sevRank (amountSeverity a)) (sevRank (retrySeverity rc))
    ∧ (∀ (db : DB) (tid : String) (uid : Option String) (s : Bool) (now fuel : Nat)
        (rid : String) (mid : Int) (p : String),
        (create_and_save_report db tid uid s now fuel).1 = .success rid mid p →
        ∃ t, fetchTxn db tid uid = some t ∧
          p = reportPriority (amountVal t) (retryCount db tid)) := by
  refine ⟨?_, ?_, ?_, ?_, ?_, ?_, ?_⟩
  · intro h; unfold reportPriority; rw [if_pos h]
  · intro h1 h2; unfold reportPriority; rw [if_neg (not_lt.mpr h1), if_pos h2]
  · intro h1 h2
    unfold reportPriority
    rw [if_neg (not_lt.mpr (h1.trans (by norm_num))), if_neg (not_lt.mpr h1), if_pos h2]
  · intro h1 h2
    unfold reportPriority
    rw [if_neg (not_lt.mpr (h1.trans (by norm_num))), if_neg (not_lt.mpr h1),
      if_neg (by omega)]
  · intro hab
    unfold reportPriority
    split_ifs <;> first | decide | linarith
  · unfold reportPriority amountSeverity retrySeverity
    split_ifs <;> decide
  · intro db tid uid s now fuel rid mid p hs
    obtain ⟨_, _, t, hf, _, _, hp, _⟩ := create_success_inv hs
    exact ⟨t, hf, hp⟩

/-- Witness for C5 at concrete values: the three amount bands, the retry
floor, a monotonicity instance, the max-combination at a concrete pair, and a
persisted report's priority. -/
theorem report_priority_policy_witness :
    reportPriority 60000 0 = "CRITICAL"
    ∧ reportPriority 20000 2 = "HIGH"
    ∧ reportPriority 5000 2 = "MEDIUM"
    ∧ reportPriority 5000 0 = "LOW"
    ∧ sevRank (reportPriority 5000 2) ≤ sevRank (reportPriority 60000 2)
    ∧ sevRank (reportPriority 60000 2) =
        max (sevRank (amountSeverity 60000)) (sevRank (retrySeverity 2))
    ∧ (∃ t, fetchTxn dbW "TXN_1" none = some t ∧
        "LOW" = reportPriority (amountVal t) (retryCount dbW "TXN_1")) := by
  refine ⟨(report_priority_policy 60000 0 0).1 (by norm_num),
    (report_priority_policy 20000 0 2).2.1 (by norm_num) (by norm_num),
    (report_priority_policy 5000 0 2).2.2.1 (by norm_num) (by norm_num),
    (report_priority_policy 5000 0 0).2.2.2.1 (by norm_num) (by norm_num),
    (report_priority_policy 5000 60000 2).2.2.2.2.1 (by norm_num),
    (report_priority_policy 60000 0 2).2.2.2.2.2.1,
    (report_priority_policy 0 0 0).2.2.2.2.2.2 dbW "TXN_1" none false 0 9
      (reportId false 0 "TXN_1") 1 "LOW" (by decide)⟩

/-- C6 counterexample: `retry_transaction_tool` performs no risk check at all —
on a transaction rated HIGH by the external risk assessment, with 0 prior
attempts, the call succeeds and creates attempt `RT1`, so a retry on a
HIGH-risk transaction does succeed and the claimed blocked-by-risk pre-check
does not exist in the code. -/
theorem high_risk_retry_counterexample :
    highRiskOf "TXN_H" = some RiskLevel.HIGH
    ∧ (retry_transaction_tool dbHighRisk "TXN_H" none 0).1 = RetryResult.success "RT1_TXN_H" 1
    ∧ rtCount (retry_transaction_tool dbHighRisk "TXN_H" none 0).2 "TXN_H" = 1 := by
  exact ⟨rfl, by decide, by decide⟩

/-- C6 (amended): no code-level blocked-by-risk pre-check exists:
`retry_transaction_tool` takes no risk input, so under ANY external risk
assignment — including one rating the transaction HIGH — the call succeeds and
creates the attempt whenever its own four guards pass; "never retry HIGH risk"
exists only as prompt text for the LLM agents. -/
theorem high_risk_no_code_precheck (risk : String → Option RiskLevel) (db : DB)
    (tid : String) (uid : Option String) (now : Nat) (t : Txn)
    (h0 : tid ≠ "") (hf : fetchTxn db tid uid = some t)
    (hfl : t.is_floating_cash = true) (hrs : t.is_retry_successful = false)
    (hlim : ¬ 2 ≤ retryCount db tid)
    (hpk : db.transactions.any (fun x =>
      x.transaction_id == ("RT" ++ toString (retryCount db tid + 1) ++ "_" ++ tid)) = false)
    (_hrisk : risk tid = some RiskLevel.HIGH) :
    (retry_transaction_tool db tid uid now).1 =
      .success ("RT" ++ toString (retryCount db tid + 1) ++ "_" ++ tid)
        (retryCount db tid + 1) := by
  rw [retry_success_eq now h0 hf hfl hrs hlim hpk]

/-- Witness for the amended C6: the HIGH-risk `TXN_H` is retried successfully. -/
theorem high_risk_no_code_precheck_witness :
    (retry_transaction_tool dbHighRisk "TXN_H" none 0).1 =
      .success ("RT" ++ toString (retryCount dbHighRisk "TXN_H" + 1) ++ "_" ++ "TXN_H")
        (retryCount dbHighRisk "TXN_H" + 1) :=
  high_risk_no_code_precheck highRiskOf dbHighRisk "TXN_H" none 0 (baseTxn "TXN_H" "U1")
    (by decide) (by decide) (by decide) (by decide) (by decide) (by decide) (by decide)

/-- C7 counterexample: `create_and_save_report` wraps nothing in a transaction
block, so when the connection dies after the report insert (4 statements
succeed), the call errors with the report row committed but
`manual_escalation_needed` still false — the two effects are not atomic. -/
theorem report_atomicity_counterexample :
    (create_and_save_report dbOne "TXN_7" none false 0 4).1 = ReportResult.error
    ∧ (create_and_save_report dbOne "TXN_7" none false 0 4).2.messages.length = 1
    ∧ ((create_and_save_report dbOne "TXN_7" none false 0 4).2.transactions.all
        (fun x => !x.manual_escalation_needed)) = true := by
  exact ⟨by decide, by decide, by decide⟩

/-- C7 (amended): a missing transaction yields an error with nothing written
(no report is ever fabricated); a run in which every statement commits
persists the report row and sets the flag; but the two effects are separate
auto-committed statements, so a failure between them leaves the report
persisted without the flag. -/
theorem report_persistence_contract (db : DB) (tid : String) (uid : Option String)
    (s : Bool) (now : Nat) (fuel : Nat) :
    (tid ≠ "" → ¬ fuel < 1 → fetchTxn db tid uid = none →
      create_and_save_report db tid uid s now fuel = (.error, db))
    ∧ (∀ t, tid ≠ "" → 5 ≤ fuel → fetchTxn db tid uid = some t →
        (create_and_save_report db tid uid s now fuel).2.messages =
          db.messages ++ [⟨maxMessageId db + 1, tid, reportId s now tid⟩]
        ∧ ∀ x ∈ (create_and_save_report db tid uid s now fuel).2.transactions,
            x.transaction_id = tid → x.manual_escalation_needed = true)
    ∧ (∀ t, tid ≠ "" → fetchTxn db tid uid = some t →
        create_and_save_report db tid uid s now 4 =
          (.error, reportInsertStore db tid (reportId s now tid) (maxMessageId db + 1))) := by
  refine ⟨?_, ?_, ?_⟩
  · intro h0 h1 hf; exact create_notfound_eq s now h0 h1 hf
  · intro t h0 hfuel hf
    rw [create_success_eq s now h0 hfuel hf]
    constructor
    · simp [reportEscalateStore, reportInsertStore]
    · exact reportEscalateStore_flag _ tid
  · intro t h0 hf; exact create_partial_eq s now h0 hf

/-- Witness for the amended C7 at a concrete store: not-found errors cleanly,
a full run commits both effects, and the fuel-4 run commits only the insert. -/
theorem report_persistence_contract_witness :
    create_and_save_report dbOne "NOPE" none false 0 9 = (.error, dbOne)
    ∧ (create_and_save_report dbOne "TXN_7" none false 0 9).2.messages =
        dbOne.messages ++ [⟨maxMessageId dbOne + 1, "TXN_7", reportId false 0 "TXN_7"⟩]
    ∧ create_and_save_report dbOne "TXN_7" none false 0 4 =
        (.error, reportInsertStore dbOne "TXN_7" (reportId false 0 "TXN_7")
          (maxMessageId dbOne + 1)) := by
  refine ⟨(report_persistence_contract dbOne "NOPE" none false 0 9).1
      (by decide) (by omega) (by decide),
    ((report_persistence_contract dbOne "TXN_7" none false 0 9).2.1
      (baseTxn "TXN_7" "U1") (by decide) (by omega) (by decide)).1,
    (report_persistence_contract dbOne "TXN_7" none false 0 4).2.2
      (baseTxn "TXN_7" "U1") (by decide) (by decide)⟩

/-- C8 counterexample: the code serializes nothing around read-max-then-insert
(no transaction, no lock), so interleaving two concurrent report creations as
read₁, read₂, insert₁, insert₂ makes BOTH sessions read max 0 and assign the
same `message_id` 1 — the assignment is not race-safe. -/
theorem message_id_race_counterexample :
    (runSchedule [true, false, true, false] (.start, .start, ⟨[], []⟩)).1 = WriterPC.done 1
    ∧ (runSchedule [true, false, true, false] (.start, .start, ⟨[], []⟩)).2.1 = WriterPC.done 1
    ∧ ((runSchedule [true, false, true, false]
        (.start, .start, ⟨[], []⟩)).2.2.messages.map (fun m => m.message_id)) = [1, 1] := by
  exact ⟨by decide, by decide, by decide⟩

/-- C8 (amended): sequentially the claim holds — every successful report
creation assigns `message_id = max + 1`, strictly greater than every id
present before the call — but the read-max-then-insert has no serialization in
the code, so concurrent creations can assign the same id. -/
theorem message_id_monotone (db : DB) (tid : String) (uid : Option String)
    (s : Bool) (now fuel : Nat) (rid : String) (mid : Int) (p : String)
    (hs : (create_and_save_report db tid uid s now fuel).1 = .success rid mid p) :
    mid = maxMessageId db + 1 ∧ ∀ m ∈ db.messages, m.message_id < mid := by
  obtain ⟨_, _, t, _, _, hmid, _, _⟩ := create_success_inv hs
  subst hmid
  refine ⟨rfl, fun m hm => ?_⟩
  have h := mem_le_maxMessageId db m hm
  omega

/-- Witness for the amended C8: on a store whose only report has id 5, the
next report receives id 6, strictly above it. -/
theorem message_id_monotone_witness :
    ((6 : Int) = maxMessageId dbMsg + 1
      ∧ (Msg.mk 5 "TXN_7" "r").message_id < 6) := by
  have h := message_id_monotone dbMsg "TXN_7" none false 0 9
    (reportId false 0 "TXN_7") 6
    (reportPriority (amountVal (baseTxn "TXN_7" "U1")) (retryCount dbMsg "TXN_7"))
    (by decide)
  exact ⟨h.1, h.2 (Msg.mk 5 "TXN_7" "r") (by decide)⟩

/-- C9 counterexample: `task_id` is read from session state
(`state.get("task_id", uuid4())`), so when the state carries a stored task id,
two successive outbound calls reuse the very same `task_id` — they are not
fresh per call and not distinct. -/
theorem task_id_freshness_counterexample :
    (send_message_ids stStored 0).1.taskId = 999
    ∧ (send_message_ids stStored ((send_message_ids stStored 0).2)).1.taskId = 999
    ∧ (send_message_ids stStored 0).1.taskId =
        (send_message_ids stStored ((send_message_ids stStored 0).2)).1.taskId := by
  exact ⟨rfl, rfl, rfl⟩

/-- C9 (amended): only `message_id` is freshly generated on every outbound
call (distinct across calls); `task_id` and `context_id` are taken verbatim
from session state when present — hence reused across calls — and freshly
drawn but never stored back when absent, so `context_id` is not kept stable
by this code either. -/
theorem send_message_ids_spec (st st' : SessionState) (c c' : Nat) :
    (send_message_ids st c).2 = c + 3
    ∧ (send_message_ids st c).1.messageId = c + 2
    ∧ (c ≠ c' →
        (send_message_ids st c).1.messageId ≠ (send_message_ids st' c').1.messageId)
    ∧ (∀ v, st.task_id = some v → (send_message_ids st c).1.taskId = v)
    ∧ (st.task_id = none → (send_message_ids st c).1.taskId = c)
    ∧ (∀ v, st.context_id = some v → (send_message_ids st c).1.contextId = v)
    ∧ (st.context_id = none → (send_message_ids st c).1.contextId = c + 1) := by
  refine ⟨rfl, rfl, ?_, ?_, ?_, ?_, ?_⟩
  · intro h
    simp only [send_message_ids]
    omega
  · intro v hv; simp [send_message_ids, hv]
  · intro hv; simp [send_message_ids, hv]
  · intro v hv; simp [send_message_ids, hv]
  · intro hv; simp [send_message_ids, hv]

/-- Witness for the amended C9: two successive calls on an empty session state
draw distinct message ids, and a stored task id is returned verbatim. -/
theorem send_message_ids_spec_witness :
    (send_message_ids ⟨none, none⟩ 0).1.messageId ≠
      (send_message_ids ⟨none, none⟩ 3).1.messageId
    ∧ (send_message_ids stStored 0).1.taskId = 999 := by
  exact ⟨(send_message_ids_spec ⟨none, none⟩ ⟨none, none⟩ 0 3).2.2.1 (by omega),
    (send_message_ids_spec stStored stStored 0 0).2.2.2.1 999 rfl⟩

/-- C10: every successful `create_and_save_report` sets the referenced
transaction's `manual_escalation_needed` to true — including a success report
(`is_success = True`) created right after a successful retry, even though the
retry had just cleared that flag; the flag's final value is therefore true. -/
theorem success_report_sets_escalation (db : DB) (tid : String) (uid uid2 : Option String)
    (now now2 fuel : Nat) (nid : String) (n : Nat) (rid : String) (mid : Int) (p : String) :
    (∀ (db0 : DB) (s : Bool),
      (create_and_save_report db0 tid uid2 s now2 fuel).1 = .success rid mid p →
      ∀ x ∈ (create_and_save_report db0 tid uid2 s now2 fuel).2.transactions,
        x.transaction_id = tid → x.manual_escalation_needed = true)
    ∧ ((retry_transaction_tool db tid uid now).1 = .success nid n →
        ∀ x ∈ (retry_transaction_tool db tid uid now).2.transactions,
          x.transaction_id = tid → x.manual_escalation_needed = false)
    ∧ ((retry_transaction_tool db tid uid now).1 = .success nid n →
        (create_and_save_report (retry_transaction_tool db tid uid now).2 tid uid2 true
          now2 fuel).1 = .success rid mid p →
        ∀ x ∈ (create_and_save_report (retry_transaction_tool db tid uid now).2 tid uid2
          true now2 fuel).2.transactions,
          x.transaction_id = tid → x.manual_escalation_needed = true) := by
  have hpart1 : ∀ (db0 : DB) (s : Bool),
      (create_and_save_report db0 tid uid2 s now2 fuel).1 = .success rid mid p →
      ∀ x ∈ (create_and_save_report db0 tid uid2 s now2 fuel).2.transactions,
        x.transaction_id = tid → x.manual_escalation_needed = true := by
    intro db0 s hs
    obtain ⟨_, _, t, _, _, _, _, hstore⟩ := create_success_inv hs
    rw [hstore]
    exact reportEscalateStore_flag _ tid
  refine ⟨hpart1, ?_, ?_⟩
  · intro hs
    obtain ⟨t, _, _, _, hstore⟩ := retry_success_inv hs
    rw [hstore]
    exact retrySuccessStore_flag db t tid nid now
  · intro _ hs2
    exact hpart1 _ true hs2

/-- Witness for C10: retrying `TXN_1` clears the flag, then the success report
re-sets it on the updated row of the final store. -/
theorem success_report_sets_escalation_witness :
    ({ baseTxn "TXN_1" "U1" with is_retry_successful := true, manual_escalation_needed := true } : Txn).manual_escalation_needed = true := by
  have h := (success_report_sets_escalation dbW "TXN_1" none none 0 1 9
    "RT1_TXN_1" 1 (reportId true 1 "TXN_1") 1 "LOW").2.2 (by decide) (by decide)
  exact h ({ baseTxn "TXN_1" "U1" with is_retry_successful := true, manual_escalation_needed := true }) (by decide) (by decide)

end Spark
